import Mathlib

/-! Shallow embedding of src/examples/loadlib/addlib.c.

The platform's standard signed integer type `int` is 32 bits wide with
two's-complement wraparound. A C `int` value is modelled as a mathematical
integer in the representable range, and the arithmetic of `a + b` inside
`add` is modelled by reducing the mathematical sum into that range. -/

/-- Smallest value of the platform's 32-bit signed `int` type. -/
def INT_MIN : Int := -2147483648

/-- Largest value of the platform's 32-bit signed `int` type. -/
def INT_MAX : Int := 2147483647

/-- A mathematical integer is representable in the platform's signed `int` type. -/
def intRepresentable (x : Int) : Prop := INT_MIN ≤ x ∧ x ≤ INT_MAX

instance (x : Int) : Decidable (intRepresentable x) := by
  unfold intRepresentable INT_MIN INT_MAX
  infer_instance

/-- Two's-complement wraparound of a mathematical integer into the signed
32-bit range: the unique representative of `x` modulo `2^32` lying in
`[-2^31, 2^31)`. -/
def wrap32 (x : Int) : Int := (x + 2147483648) % 4294967296 - 2147483648

/-- Embedding of `add` from src/examples/loadlib/addlib.c lines 25-27:
`int add(int a, int b) { return a + b; }`, where the C `+` on `int`
operands carries the platform's two's-complement wraparound. -/
def add (a b : Int) : Int := wrap32 (a + b)

/-- The three possible expansions of the visibility macro. -/
inductive ExportMarking
  | dllexport
  | dllimport
  | noMarking
  deriving DecidableEq

/-- Embedding of the `ADDLIB_API` macro from src/examples/loadlib/addlib.c
lines 8-16: on a Windows-like target (`_WIN32` defined) it expands to
`__declspec(dllexport)` when `ADDLIB_EXPORTS` is defined and to
`__declspec(dllimport)` otherwise; on any other target it expands to
nothing. The two arguments record whether `_WIN32` and `ADDLIB_EXPORTS`
are defined. -/
def ADDLIB_API (win32 : Bool) (addlibExports : Bool) : ExportMarking :=
  if win32 then
    if addlibExports then ExportMarking.dllexport else ExportMarking.dllimport
  else
    ExportMarking.noMarking

/-- C1: for every pair of representable signed integers `a` and `b`,
`add a b` agrees with the mathematical sum `a + b` modulo the platform's
integer wraparound rule (modulo `2^32`). -/
theorem add_returns_sum_mod_wrap (a b : Int)
    (ha : intRepresentable a) (hb : intRepresentable b) :
    add a b % 4294967296 = (a + b) % 4294967296 := by
  unfold add wrap32
  omega

/-- Witness for C1 at `a = 2`, `b = 3`. -/
theorem add_returns_sum_mod_wrap_witness :
    intRepresentable 2 ∧ intRepresentable 3 ∧
      add 2 3 % 4294967296 = (2 + 3 : Int) % 4294967296 :=
  ⟨by decide, by decide, add_returns_sum_mod_wrap 2 3 (by decide) (by decide)⟩

/-- C2: when the mathematical sum of two representable inputs is not itself
representable, `add` returns the sum wrapped modulo `2^32` (so it is
congruent to `a + b` modulo `2^32` but differs from `a + b`). -/
theorem add_overflow_wraps (a b : Int)
    (ha : intRepresentable a) (hb : intRepresentable b)
    (hov : ¬ intRepresentable (a + b)) :
    add a b % 4294967296 = (a + b) % 4294967296 ∧ add a b ≠ a + b := by
  unfold add wrap32
  unfold intRepresentable INT_MIN INT_MAX at ha hb hov
  omega

/-- Witness for C2 at `a = INT_MAX`, `b = 1`, where the result additionally
wraps to exactly `INT_MIN`. -/
theorem add_overflow_wraps_witness :
    intRepresentable INT_MAX ∧ intRepresentable 1 ∧
      ¬ intRepresentable (INT_MAX + 1) ∧
      (add INT_MAX 1 % 4294967296 = (INT_MAX + 1) % 4294967296 ∧
        add INT_MAX 1 ≠ INT_MAX + 1) ∧
      add INT_MAX 1 = INT_MIN :=
  ⟨by decide, by decide, by decide,
    add_overflow_wraps INT_MAX 1 (by decide) (by decide) (by decide),
    by decide⟩

/-- C3: `add` is total on representable inputs: it always yields a value
that is itself representable in the platform's signed `int` type (there is
no error, exception, or failure branch in the source). -/
theorem add_total_representable (a b : Int)
    (ha : intRepresentable a) (hb : intRepresentable b) :
    intRepresentable (add a b) := by
  unfold add wrap32
  unfold intRepresentable INT_MIN INT_MAX at *
  omega

/-- Witness for C3 at `a = -1`, `b = INT_MIN`. -/
theorem add_total_representable_witness :
    intRepresentable (-1) ∧ intRepresentable INT_MIN ∧
      intRepresentable (add (-1) INT_MIN) :=
  ⟨by decide, by decide, add_total_representable (-1) INT_MIN (by decide) (by decide)⟩

/-- C4: `add` is pure and deterministic: its embedding is a function of its
two arguments alone (the source body reads and writes no outside state), so
any two invocations on equal inputs return equal results. -/
theorem add_deterministic (a b a' b' : Int) (ha : a = a') (hb : b = b') :
    add a b = add a' b' := by
  rw [ha, hb]

/-- Witness for C4 at `a = 7`, `b = 11`. -/
theorem add_deterministic_witness : add 7 11 = add 7 11 :=
  add_deterministic 7 11 7 11 rfl rfl

/-- C5: the concrete test vectors of the spec hold:
`add 0 0 = 0`, `add 2 3 = 5`, and `add (-1) 1 = 0`. -/
theorem add_test_vectors : add 0 0 = 0 ∧ add 2 3 = 5 ∧ add (-1) 1 = 0 := by
  decide

/-- C6: the visibility macro follows the conditional compile-time
convention: on a Windows-like target it expands to `dllexport` when
`ADDLIB_EXPORTS` is defined and to `dllimport` otherwise, and on every
other target it expands to no special marking at all. -/
theorem addlib_api_convention :
    ADDLIB_API true true = ExportMarking.dllexport ∧
      ADDLIB_API true false = ExportMarking.dllimport ∧
      ∀ e : Bool, ADDLIB_API false e = ExportMarking.noMarking :=
  ⟨rfl, rfl, fun _ => rfl⟩

/-- C8: `add` is commutative on representable inputs. -/
theorem add_commutative (a b : Int)
    (ha : intRepresentable a) (hb : intRepresentable b) :
    add a b = add b a := by
  unfold add
  rw [Int.add_comm]

/-- Witness for C8 at `a = 5`, `b = -9`. -/
theorem add_commutative_witness :
    intRepresentable 5 ∧ intRepresentable (-9) ∧ add 5 (-9) = add (-9) 5 :=
  ⟨by decide, by decide, add_commutative 5 (-9) (by decide) (by decide)⟩

/-- C9: `0` is an identity for `add`: for every representable signed
integer `a`, `add a 0 = a` and `add 0 a = a`. -/
theorem add_zero_identity (a : Int) (ha : intRepresentable a) :
    add a 0 = a ∧ add 0 a = a := by
  unfold add wrap32
  unfold intRepresentable INT_MIN INT_MAX at ha
  omega

/-- Witness for C9 at `a = 42`. -/
theorem add_zero_identity_witness :
    intRepresentable 42 ∧ add 42 0 = 42 ∧ add 0 42 = 42 :=
  ⟨by decide, add_zero_identity 42 (by decide)⟩

/-- C10: `add` is associative under the type's wraparound arithmetic:
for all representable signed integers `a`, `b`, `c`,
`add (add a b) c = add a (add b c)`. -/
theorem add_associative (a b c : Int)
    (ha : intRepresentable a) (hb : intRepresentable b)
    (hc : intRepresentable c) :
    add (add a b) c = add a (add b c) := by
  unfold add wrap32
  omega

/-- Witness for C10 at `a = INT_MAX`, `b = 1`, `c = -1`. -/
theorem add_associative_witness :
    intRepresentable INT_MAX ∧ intRepresentable 1 ∧ intRepresentable (-1) ∧
      add (add INT_MAX 1) (-1) = add INT_MAX (add 1 (-1)) :=
  ⟨by decide, by decide, by decide,
    add_associative INT_MAX 1 (-1) (by decide) (by decide) (by decide)⟩
